import Mathlib

/-!
Verification of the fastmcp-map-app core against its specification.

Shallow embedding of `src/map_tools.py`, `src/message_parser.py` and
`src/websocket_handler.py`.  Python / JSON dynamic values are modelled by
`JVal` (both Python ints and floats become exact rationals), fallible code
returns `Except PyExc`, and the mutable `map_state` dict becomes explicit
state passing on `WorldState`.  The outbound geocoding request and the
language-model call are external collaborators and enter as parameters.
-/

namespace MapApp

/-- Python/JSON dynamic values.  Numbers (Python int and float alike) are
modelled as exact rationals; arrays and objects keep insertion order, and
objects may keep duplicate keys as produced by the JSON parser (lookup is
last-wins, like Python dict construction).  `null` models both JSON null
and Python `None`. -/
inductive JVal where
  | null : JVal
  | boolean : Bool → JVal
  | num : ℚ → JVal
  | str : String → JVal
  | arr : List JVal → JVal
  | obj : List (String × JVal) → JVal

/-- Python dict lookup; with duplicate keys the last binding wins. -/
def pyLookup (kvs : List (String × JVal)) (k : String) : Option JVal :=
  kvs.foldl (fun acc p => if p.1 = k then some p.2 else acc) none

/-- Python `d.get(k, default)` on a dict known to be a dict. -/
def pyLookupD (kvs : List (String × JVal)) (k : String) (d : JVal) : JVal :=
  (pyLookup kvs k).getD d

/-- Python `k in d`. -/
def pyHasKey (kvs : List (String × JVal)) (k : String) : Bool :=
  (pyLookup kvs k).isSome

/-- Python `v is None` on a JSON-derived value. -/
def isNull : JVal → Bool
  | .null => true
  | _ => false

/-- Python truthiness of a JSON-derived value. -/
def pyTruthy : JVal → Bool
  | .null => false
  | .boolean b => b
  | .num q => decide (q ≠ 0)
  | .str s => s ≠ ""
  | .arr l => !l.isEmpty
  | .obj l => !l.isEmpty

/-- Python `v == s` where `s` is a string literal: values that are not
strings compare unequal (no exception). -/
def isStrEq (v : JVal) (s : String) : Bool :=
  match v with
  | .str t => t == s
  | _ => false

/-- Decimal rendering of a rational, used only inside human-readable result
messages.  Integral values print like Python ints; values with a finite
decimal expansion print as that expansion (Python float repr is abstracted
to this exact decimal form; no verified statement depends on it). -/
def qRepr (q : ℚ) : String :=
  if q.den = 1 then toString q.num
  else
    match (List.range 29).find? (fun k => (q * (10 : ℚ) ^ (k + 1)).den = 1) with
    | some k =>
      let places := k + 1
      let n := (q * (10 : ℚ) ^ places).num
      let sign := if n < 0 then "-" else ""
      let s := toString n.natAbs
      let s := if s.length ≤ places then
          String.mk (List.replicate (places + 1 - s.length) '0') ++ s
        else s
      let cut := s.length - places
      sign ++ String.mk (s.toList.take cut) ++ "." ++ String.mk (s.toList.drop cut)
    | none => toString q.num ++ "/" ++ toString q.den

/-- Python `str()` / f-string rendering of a JSON-derived value.  Container
repr is abbreviated; no verified statement depends on it. -/
def pyAtomStr : JVal → String
  | .null => "None"
  | .boolean true => "True"
  | .boolean false => "False"
  | .num q => qRepr q
  | .str s => s
  | .arr _ => "[...]"
  | .obj _ => "\x7b...\x7d"

/-- Python exceptions the embedded code can raise. -/
inductive PyExc where
  | keyError : String → PyExc
  | typeError : String → PyExc
  | attributeError : String → PyExc
  | indexError : String → PyExc
  | valueError : String → PyExc

/-- Python `str(e)` for the exceptions above (KeyError quotes its key). -/
def pyExcStr : PyExc → String
  | .keyError k => "\x27" ++ k ++ "\x27"
  | .typeError m => m
  | .attributeError m => m
  | .indexError m => m
  | .valueError m => m

/-- Embeds the mutable `map_state` dict (src/map_tools.py:12-13): the
two-element Python list `[longitude, latitude]` stored under `"center"` is
modelled as the pair `(longitude, latitude)`, and `"zoom"` keeps whatever
value the handlers store. -/
structure WorldState where
  center : JVal × JVal
  zoom : JVal

/-- Fields of a `"type": "tool_result"` response dict as built by the tool
handlers: tool name, human-readable result message, any extra fields
(geocode adds `coordinates` and `candidates_count`), and the copied state
snapshot stored under `"map_state"`. -/
structure ToolOk where
  tool : String
  result : String
  extra : List (String × JVal)
  map_state : WorldState

/-- Return value of a tool handler: a `"type": "tool_result"` dict (`ok`) or
a `"type": "error"` dict (`error`, carrying its `content` message). -/
inductive ToolResult where
  | ok : ToolOk → ToolResult
  | error : String → ToolResult

/-- Python `arguments[key]` subscription on a JSON-derived value. -/
def pySubscript (v : JVal) (k : String) : Except PyExc JVal :=
  match v with
  | .obj kvs =>
    match pyLookup kvs k with
    | some x => .ok x
    | none => .error (.keyError k)
  | .arr _ => .error (.typeError "list indices must be integers or slices, not str")
  | .str _ => .error (.typeError "string indices must be integers")
  | _ => .error (.typeError "object is not subscriptable")

/-- Values Python `max`/`min` accept against integer bounds (bools count as
0/1); anything else raises TypeError there.  Python returns the original
bool object when it is the extremum; that is abstracted to its numeric
value (no verified statement depends on it). -/
def pyNum : JVal → Option ℚ
  | .num q => some q
  | .boolean b => some (if b then 1 else 0)
  | _ => none

/-- Embeds `MapTools.navigate_to_location` (src/map_tools.py:43-58):
overwrites `map_state["center"] = [longitude, latitude]` unconditionally —
no range validation, no transformation — and returns a result dict carrying
a copy of the mutated state. -/
def navigate_to_location (latitude longitude : JVal) (st : WorldState) :
    WorldState × ToolResult :=
  let st' : WorldState := { st with center := (longitude, latitude) }
  (st', .ok ⟨"navigate_to_location",
    "Map navigated to coordinates: " ++ pyAtomStr latitude ++ ", " ++ pyAtomStr longitude,
    [], st'⟩)

/-- Embeds `MapTools.zoom_to_level` (src/map_tools.py:60-75): stores
`max(0, min(20, zoom_level))`; a non-numeric argument makes Python's
`min`/`max` comparison raise TypeError before any mutation.  The result
message reports the original, unclamped input. -/
def zoom_to_level (zoom_level : JVal) (st : WorldState) :
    WorldState × Except PyExc ToolResult :=
  match pyNum zoom_level with
  | some q =>
    let st' : WorldState := { st with zoom := .num (max 0 (min 20 q)) }
    (st', .ok (.ok ⟨"zoom_to_level",
      "Map zoomed to level: " ++ pyAtomStr zoom_level, [], st'⟩))
  | none =>
    (st, .error (.typeError "comparison not supported between instances"))

/-- HTTP response of the ArcGIS geocoding request: status code and the
result of `await response.json()` (`Except.error` models a body on which
`.json()` raises, caught by the generic handler). -/
structure HttpResponse where
  status : Nat
  body : Except String JVal

/-- Outcome of the outbound geocoding request, the external collaborator of
`MapTools.geocode_address`. -/
inductive ProviderOutcome where
  | response : HttpResponse → ProviderOutcome
  | raiseClient : String → ProviderOutcome
  | raiseOther : String → ProviderOutcome

/-- Python `d.get(key, default)` where `d` may be any JSON-derived value;
non-dicts have no `.get` attribute. -/
def pyGet (v : JVal) (k : String) (d : JVal) : Except PyExc JVal :=
  match v with
  | .obj kvs => .ok (pyLookupD kvs k d)
  | _ => .error (.attributeError "object has no attribute get")

/-- Python `xs[0]`. -/
def pyIndexZero : JVal → Except PyExc JVal
  | .arr (x :: _) => .ok x
  | .arr [] => .error (.indexError "list index out of range")
  | .str s =>
    match s.toList with
    | c :: _ => .ok (.str (String.mk [c]))
    | [] => .error (.indexError "string index out of range")
  | _ => .error (.typeError "object is not subscriptable")

/-- Python `len(v)`. -/
def pyLenE : JVal → Except PyExc ℚ
  | .arr l => .ok (l.length : ℚ)
  | .str s => .ok (s.length : ℚ)
  | .obj l => .ok (l.length : ℚ)
  | _ => .error (.typeError "object has no len")

/-- Python `format(v, ".6f")`; ties are rounded half-up (half-even is
abstracted; no verified statement depends on this rendering). -/
def qFmt6 (q : ℚ) : String :=
  let n : ℤ := Rat.floor (q * 1000000 + 1 / 2)
  let sign := if n < 0 then "-" else ""
  let s := toString n.natAbs
  let s := if s.length ≤ 6 then String.mk (List.replicate (7 - s.length) '0') ++ s else s
  let cut := s.length - 6
  sign ++ String.mk (s.toList.take cut) ++ "." ++ String.mk (s.toList.drop cut)

/-- Python `f"{v:.6f}"` on a JSON-derived value. -/
def pyFmt6 : JVal → Except PyExc String
  | .num q => .ok (qFmt6 q)
  | .boolean b => .ok (qFmt6 (if b then 1 else 0))
  | _ => .error (.typeError "unsupported format string passed to object")

/-- Message of the generic `except Exception` handler of
`MapTools.geocode_address` (src/map_tools.py:147-151). -/
def geoUnexpected (addr : JVal) (m : String) : String :=
  "Unexpected error when geocoding address \x27" ++ pyAtomStr addr ++ "\x27: " ++ m

/-- Embeds the `status == 200` branch of `MapTools.geocode_address`
(src/map_tools.py:94-136) with the surrounding exception handlers applied.
The candidate probing before the `x is not None and y is not None` check
(phase 1) cannot mutate the state; the center/zoom mutation happens before
the result dict is built, so a failure while formatting the message
(phase 2) leaves the state already mutated — exactly as in the source. -/
def geocode_with_data (data addr : JVal) (st : WorldState) : WorldState × ToolResult :=
  let phase1 : Except PyExc (Option (JVal × JVal × JVal × JVal × JVal)) := do
    let candidates ← pyGet data "candidates" (.arr [])
    if pyTruthy candidates then do
      let best ← pyIndexZero candidates
      let location ← pyGet best "location" (.obj [])
      let x ← pyGet location "x" .null
      let y ← pyGet location "y" .null
      let score ← pyGet best "score" (.num 0)
      let address_str ← pyGet best "address" (.str "")
      pure (some (candidates, x, y, score, address_str))
    else pure none
  match phase1 with
  | .error e => (st, .error (geoUnexpected addr (pyExcStr e)))
  | .ok none => (st, .error ("No location found for address: " ++ pyAtomStr addr))
  | .ok (some (candidates, x, y, score, address_str)) =>
    if !isNull x && !isNull y then
      let st' : WorldState := ⟨(x, y), .num 15⟩
      let phase2 : Except PyExc (String × ℚ) := do
        let tl ← if pyTruthy address_str then pure (pyAtomStr address_str)
          else do
            let ys ← pyFmt6 y
            let xs ← pyFmt6 x
            pure (ys ++ ", " ++ xs)
        let cnt ← pyLenE candidates
        pure (tl, cnt)
      match phase2 with
      | .error e => (st', .error (geoUnexpected addr (pyExcStr e)))
      | .ok (tl, cnt) =>
        (st', .ok ⟨"geocode_address",
          "Geocoded \x27" ++ pyAtomStr addr ++ "\x27 and navigated to: " ++ tl ++
            " (confidence: " ++ pyAtomStr score ++ "%)",
          [("coordinates", .obj [("latitude", y), ("longitude", x),
              ("confidence", score), ("formatted_address", address_str)]),
           ("candidates_count", .num cnt)],
          st'⟩)
    else
      (st, .error ("Geocoding service returned invalid coordinates for address: "
        ++ pyAtomStr addr))

/-- Embeds `MapTools.geocode_address` (src/map_tools.py:77-151).  The
network interaction enters as a parameter; `address` is the dynamically
typed argument value. -/
def geocode_address (p : ProviderOutcome) (address : JVal) (st : WorldState) :
    WorldState × ToolResult :=
  match p with
  | .raiseClient m =>
    (st, .error ("Network error when geocoding address \x27"
      ++ pyAtomStr address ++ "\x27: " ++ m))
  | .raiseOther m => (st, .error (geoUnexpected address m))
  | .response r =>
    if r.status = 200 then
      match r.body with
      | .ok data => geocode_with_data data address st
      | .error m => (st, .error (geoUnexpected address m))
    else
      (st, .error ("Geocoding service returned HTTP " ++ toString r.status
        ++ " for address: " ++ pyAtomStr address))

/-- Tool call as consumed by `MapTools.execute_tool_call`
(src/map_tools.py:15-41).  The attribute-style and dict-style
representations both bind the same `(name, arguments)` pair and are merged
into `fn`; `arguments` travels as a JSON string in the source (built by
`json.dumps`, decoded again by `json.loads` at dispatch) and is carried
here as the parsed value, the round trip being the identity.  `invalid` is
any other shape and carries its textual repr for the error message. -/
inductive ToolCallMsg where
  | fn : JVal → JVal → ToolCallMsg
  | invalid : String → ToolCallMsg

/-- Embeds `MapTools.execute_tool_call` (src/map_tools.py:15-41).  The
required-argument subscriptions evaluate left to right before the handler
runs; a raised exception escapes (there is no try/except around the
dispatch), modelled by `Except.error` with the state as mutated so far
(which is: not at all, since every subscription precedes every mutation). -/
def execute_tool_call (p : ProviderOutcome) (tc : ToolCallMsg) (st : WorldState) :
    WorldState × Except PyExc ToolResult :=
  match tc with
  | .invalid r => (st, .ok (.error ("Invalid tool call format: " ++ r)))
  | .fn name args =>
    if isStrEq name "navigate_to_location" then
      match pySubscript args "latitude" with
      | .error e => (st, .error e)
      | .ok lat =>
        match pySubscript args "longitude" with
        | .error e => (st, .error e)
        | .ok lon =>
          let (st', res) := navigate_to_location lat lon st
          (st', .ok res)
    else if isStrEq name "zoom_to_level" then
      match pySubscript args "zoom_level" with
      | .error e => (st, .error e)
      | .ok z => zoom_to_level z st
    else if isStrEq name "geocode_address" then
      match pySubscript args "address" with
      | .error e => (st, .error e)
      | .ok a =>
        let (st', res) := geocode_address p a st
        (st', .ok res)
    else
      (st, .ok (.error ("Unknown tool: " ++ pyAtomStr name)))

/-- Characters matched by Python's regex `\s` (and stripped by
`str.strip()`); the additional Unicode whitespace both also accept is
irrelevant to the embedded inputs. -/
def pyWs (c : Char) : Bool :=
  c == ' ' || c == '\t' || c == '\n' || c == '\r' || c == '\x0b' || c == '\x0c'

/-- Python `text.lower()` (ASCII case mapping). -/
def lowerStr (s : String) : String := String.mk (s.toList.map Char.toLower)

/-- Contiguous-substring search on character lists. -/
def containsSubAux (sub : List Char) : List Char → Bool
  | [] => sub.isEmpty
  | cs@(_ :: tl) => sub.isPrefixOf cs || containsSubAux sub tl

/-- Python `sub in hay` substring containment. -/
def containsSub (hay sub : String) : Bool := containsSubAux sub.toList hay.toList

/-- Python `s.strip()`. -/
def pyStrip (s : String) : String :=
  String.mk (((s.toList.dropWhile pyWs).reverse.dropWhile pyWs).reverse)

/-- Whitespace skipped between JSON tokens by `json.loads`. -/
def jsonWs (c : Char) : Bool := c == ' ' || c == '\t' || c == '\n' || c == '\r'

/-- Hexadecimal digit value, for JSON `\uXXXX` escapes. -/
def hexVal? (c : Char) : Option Nat :=
  if '0' ≤ c ∧ c ≤ '9' then some (c.toNat - 48)
  else if 'a' ≤ c ∧ c ≤ 'f' then some (c.toNat - 87)
  else if 'A' ≤ c ∧ c ≤ 'F' then some (c.toNat - 55)
  else none

/-- JSON string body parser (after the opening quote), accumulator-passing. -/
def jparseString (acc : List Char) : List Char → Option (String × List Char)
  | [] => none
  | c :: rest =>
    if c == '"' then some (String.mk acc.reverse, rest)
    else if c == '\\' then
      match rest with
      | [] => none
      | e :: rest2 =>
        if e == '"' then jparseString ('"' :: acc) rest2
        else if e == '\\' then jparseString ('\\' :: acc) rest2
        else if e == '/' then jparseString ('/' :: acc) rest2
        else if e == 'b' then jparseString ('\x08' :: acc) rest2
        else if e == 'f' then jparseString ('\x0c' :: acc) rest2
        else if e == 'n' then jparseString ('\n' :: acc) rest2
        else if e == 'r' then jparseString ('\r' :: acc) rest2
        else if e == 't' then jparseString ('\t' :: acc) rest2
        else if e == 'u' then
          match rest2 with
          | a :: b :: c2 :: d :: rest3 =>
            match hexVal? a, hexVal? b, hexVal? c2, hexVal? d with
            | some ha, some hb, some hc, some hd =>
              jparseString (Char.ofNat (((ha * 16 + hb) * 16 + hc) * 16 + hd) :: acc) rest3
            | _, _, _, _ => none
          | _ => none
        else none
    else if c.toNat < 32 then none
    else jparseString (c :: acc) rest

/-- Numeric value of a run of decimal digits. -/
def digitsToNat (ds : List Char) : Nat :=
  ds.foldl (fun acc c => acc * 10 + (c.toNat - 48)) 0

/-- JSON number parser (`-?(0|[1-9]\d*)(\.\d+)?([eE][+-]?\d+)?`). -/
def jparseNumber (cs : List Char) : Option (JVal × List Char) := do
  let (sgn, cs1) : ℚ × List Char := match cs with
    | '-' :: r => (-1, r)
    | _ => (1, cs)
  let ip := cs1.takeWhile Char.isDigit
  let rest1 := cs1.dropWhile Char.isDigit
  if ip.isEmpty then none
  else if 1 < ip.length && ip.headD 'x' == '0' then none
  else
    let base : ℚ := (digitsToNat ip : ℚ)
    let (frac, rest2) ← (match rest1 with
      | '.' :: r =>
        let fd := r.takeWhile Char.isDigit
        if fd.isEmpty then none
        else some (((digitsToNat fd : ℚ) / (10 : ℚ) ^ fd.length, r.dropWhile Char.isDigit))
      | _ => some ((0 : ℚ), rest1) : Option (ℚ × List Char))
    let (expf, rest3) ← (match rest2 with
      | 'e' :: r | 'E' :: r =>
        let (esgn, r2) : ℤ × List Char := match r with
          | '+' :: rr => (1, rr)
          | '-' :: rr => (-1, rr)
          | _ => (1, r)
        let ed := r2.takeWhile Char.isDigit
        if ed.isEmpty then none
        else some (((10 : ℚ) ^ (esgn * (digitsToNat ed : ℤ)), r2.dropWhile Char.isDigit))
      | _ => some ((1 : ℚ), rest2) : Option (ℚ × List Char))
    some (JVal.num (sgn * (base + frac) * expf), rest3)

mutual

/-- Fuel-driven JSON value parser; the fuel is instantiated with the input
length, which bounds the recursion depth. -/
def jparseVal : Nat → List Char → Option (JVal × List Char)
  | 0, _ => none
  | _ + 1, 'n' :: 'u' :: 'l' :: 'l' :: rest => some (.null, rest)
  | _ + 1, 't' :: 'r' :: 'u' :: 'e' :: rest => some (.boolean true, rest)
  | _ + 1, 'f' :: 'a' :: 'l' :: 's' :: 'e' :: rest => some (.boolean false, rest)
  | _ + 1, '"' :: rest => (jparseString [] rest).map fun p => (.str p.1, p.2)
  | fuel + 1, '[' :: rest =>
    (match rest.dropWhile jsonWs with
    | ']' :: r2 => some (.arr [], r2)
    | r1 => (jparseItems fuel r1).map fun p => (.arr p.1, p.2))
  | fuel + 1, '{' :: rest =>
    (match rest.dropWhile jsonWs with
    | '}' :: r2 => some (.obj [], r2)
    | r1 => (jparseMembers fuel r1).map fun p => (.obj p.1, p.2))
  | _ + 1, cs => jparseNumber cs

/-- JSON array items (first element not yet consumed, leading ws skipped). -/
def jparseItems : Nat → List Char → Option (List JVal × List Char)
  | 0, _ => none
  | fuel + 1, cs => do
    let (v, rest) ← jparseVal fuel cs
    match rest.dropWhile jsonWs with
    | ',' :: r2 =>
      let (vs, r3) ← jparseItems fuel (r2.dropWhile jsonWs)
      some (v :: vs, r3)
    | ']' :: r2 => some ([v], r2)
    | _ => none

/-- JSON object members (first key not yet consumed, leading ws skipped). -/
def jparseMembers : Nat → List Char → Option (List (String × JVal) × List Char)
  | 0, _ => none
  | fuel + 1, cs =>
    match cs with
    | '"' :: rest => do
      let (k, r1) ← jparseString [] rest
      match r1.dropWhile jsonWs with
      | ':' :: r3 => do
        let (v, r4) ← jparseVal fuel (r3.dropWhile jsonWs)
        match r4.dropWhile jsonWs with
        | ',' :: r6 =>
          let (ms, r7) ← jparseMembers fuel (r6.dropWhile jsonWs)
          some ((k, v) :: ms, r7)
        | '}' :: r6 => some ([(k, v)], r6)
        | _ => none
      | _ => none
    | _ => none

end

/-- Embeds Python `json.loads`: parse one value, allow surrounding
whitespace, require the whole input consumed. -/
def json_loads (s : String) : Option JVal :=
  match jparseVal (s.length + 1) (s.toList.dropWhile jsonWs) with
  | some (v, rest) => if (rest.dropWhile jsonWs).isEmpty then some v else none
  | none => none

/-- Strips a literal prefix, the building block of the regex matchers. -/
def stripPre : List Char → List Char → Option (List Char)
  | [], cs => some cs
  | _ :: _, [] => none
  | p :: ps, c :: cs => if p == c then stripPre ps cs else none

/-- Leftmost-search driver shared by the regex embeddings: try a match at
every start position from left to right, as `re.search` does. -/
def reSearch (m : List Char → Option α) : List Char → Option α
  | [] => m []
  | cs@(_ :: tl) =>
    match m cs with
    | some r => some r
    | none => reSearch m tl

/-- Match of `zoom\s*(?:to\s*)?(\d+)` (src/message_parser.py:101) at the
head of `cs`, returning the digits of group 1.  The greedy optional
`(?:to\s*)` is tried first, then skipped, exactly as the backtracking
engine does; no other backtracking can arise because `\s`, `to` and `\d`
start with pairwise disjoint character classes. -/
def zoomP1At (cs : List Char) : Option (List Char) :=
  match stripPre "zoom".toList cs with
  | none => none
  | some r1 =>
    let r2 := r1.dropWhile pyWs
    let viaTo : Option (List Char) :=
      match stripPre "to".toList r2 with
      | some r3 =>
        let ds := (r3.dropWhile pyWs).takeWhile Char.isDigit
        if ds.isEmpty then none else some ds
      | none => none
    match viaTo with
    | some ds => some ds
    | none =>
      let ds := r2.takeWhile Char.isDigit
      if ds.isEmpty then none else some ds

/-- Match of `(?:zoom|set)\s+level\s*to?\s*(\d+)` (src/message_parser.py:102)
at the head of `cs`.  Note the pattern literally requires a `t` with only
the `o` optional, and at least one whitespace character after the
keyword. -/
def zoomP3At (cs : List Char) : Option (List Char) :=
  let afterKw : Option (List Char) :=
    match stripPre "zoom".toList cs with
    | some r => some r
    | none => stripPre "set".toList cs
  match afterKw with
  | none => none
  | some r1 =>
    match r1 with
    | c :: _ =>
      if pyWs c then
        match stripPre "level".toList (r1.dropWhile pyWs) with
        | none => none
        | some r3 =>
          match r3.dropWhile pyWs with
          | 't' :: r5 =>
            let withO : Option (List Char) :=
              match r5 with
              | 'o' :: r6 =>
                let ds := (r6.dropWhile pyWs).takeWhile Char.isDigit
                if ds.isEmpty then none else some ds
              | _ => none
            (match withO with
            | some ds => some ds
            | none =>
              let ds := (r5.dropWhile pyWs).takeWhile Char.isDigit
              if ds.isEmpty then none else some ds)
          | _ => none
      else none
    | [] => none

/-- Embeds `extract_zoom_from_text` (src/message_parser.py:95-112): the two
explicit zoom patterns are tried in order on the lowercased text, and the
captured integer is clamped to [0, 20] inside the extractor before being
returned. -/
def extract_zoom_from_text (text : String) : Option ℤ :=
  let tl := (lowerStr text).toList
  match reSearch zoomP1At tl with
  | some ds => some (max 0 (min 20 (digitsToNat ds : ℤ)))
  | none =>
    match reSearch zoomP3At tl with
    | some ds => some (max 0 (min 20 (digitsToNat ds : ℤ)))
    | none => none

/-- Descending list `[n, n-1, ..., 1]`, for greedy-first backtracking. -/
def descRange (n : Nat) : List Nat := (List.range n).map (fun i => n - i)

/-- Candidate matches of `-?\d+\.?\d*` at the head of `t` in backtracking
priority order (longest digit run first; the optional dot taken before
skipped; after the dot, the longest fractional run first), each paired with
the remaining input. -/
def numCandsCore (t : List Char) : List (List Char × List Char) :=
  let ds := t.takeWhile Char.isDigit
  (descRange ds.length).flatMap fun k =>
    let taken := ds.take k
    let rest1 := t.drop k
    match rest1 with
    | '.' :: r2 =>
      let es := r2.takeWhile Char.isDigit
      ((descRange (es.length + 1)).map fun j1 =>
        let j := j1 - 1
        (taken ++ '.' :: es.take j, r2.drop j)) ++ [(taken, rest1)]
    | _ => [(taken, rest1)]

/-- Candidate matches of `-?\d+\.?\d*` including the optional sign (a
leading `-` not followed by a digit admits no match at all). -/
def numCands (t : List Char) : List (List Char × List Char) :=
  match t with
  | '-' :: r => (numCandsCore r).map fun p => ('-' :: p.1, p.2)
  | _ => numCandsCore t

/-- Greedy maximal match of `-?\d+\.?\d*`, correct for group 2 of the
coordinate pattern because nothing follows it. -/
def numGreedyCore (t : List Char) : Option (List Char) :=
  let ds := t.takeWhile Char.isDigit
  if ds.isEmpty then none
  else
    match t.drop ds.length with
    | '.' :: r2 => some (ds ++ '.' :: r2.takeWhile Char.isDigit)
    | _ => some ds

/-- Signed version of `numGreedyCore`. -/
def numGreedy (t : List Char) : Option (List Char) :=
  match t with
  | '-' :: r => (numGreedyCore r).map ('-' :: ·)
  | _ => numGreedyCore t

/-- Match of the coordinate pattern `(-?\d+\.?\d*)[^-\d]*(-?\d+\.?\d*)`
(src/message_parser.py:72) at the head of `t`.  The middle `[^-\d]*` is
deterministic: it is greedy and no shorter span can help, since group 2
must start with a `-` or a digit, exactly the characters the class
excludes. -/
def coordAt (t : List Char) : Option (List Char × List Char) :=
  (numCands t).findSome? fun p =>
    let rest2 := p.2.dropWhile fun c => !(c == '-' || Char.isDigit c)
    (numGreedy rest2).map fun g2 => (p.1, g2)

/-- Python `float()` on a string matched by `-?\d+\.?\d*`. -/
def floatOfMatch (cs : List Char) : ℚ :=
  let (sgn, cs1) : ℚ × List Char := match cs with
    | '-' :: r => (-1, r)
    | _ => (1, cs)
  let ip := cs1.takeWhile Char.isDigit
  let fp := match cs1.drop ip.length with
    | '.' :: r => r.takeWhile Char.isDigit
    | _ => []
  sgn * ((digitsToNat ip : ℚ) + (digitsToNat fp : ℚ) / (10 : ℚ) ^ fp.length)

/-- Wayfinding verbs gating both text heuristics
(src/message_parser.py:56 and 71). -/
def navWords : List String := ["navigate", "go to", "show me", "take me"]

/-- Gazetteer of src/message_parser.py:43-53, in source (dict insertion)
order: place name, latitude, longitude. -/
def locationsTable : List (String × ℚ × ℚ) :=
  [("new york", 40.7128, -74.0060),
   ("nyc", 40.7128, -74.0060),
   ("london", 51.5074, -0.1278),
   ("paris", 48.8566, 2.3522),
   ("tokyo", 35.6762, 139.6503),
   ("sydney", -33.8688, 151.2093),
   ("eiffel tower", 48.8584, 2.2945),
   ("grand canyon", 36.1069, -112.1129),
   ("statue of liberty", 40.6892, -74.0445)]

/-- Navigate tool call built by the text heuristics, with arguments in the
source's insertion order (latitude, then longitude). -/
def mkNavigateCall (lat lon : ℚ) : ToolCallMsg :=
  .fn (.str "navigate_to_location")
    (.obj [("latitude", .num lat), ("longitude", .num lon)])

/-- Embeds `extract_tool_from_text` (src/message_parser.py:38-92): under the
wayfinding-verb gate, first the gazetteer on the lowercased text, then the
numeric coordinate scan on the original text (accepted only within the
latitude/longitude ranges).  There is no zoom branch in this function. -/
def extract_tool_from_text (text : String) : Option ToolCallMsg :=
  let text_lower := lowerStr text
  let gate := navWords.any fun w => containsSub text_lower w
  let fromPlaces : Option ToolCallMsg :=
    if gate then
      locationsTable.findSome? fun e =>
        if containsSub text_lower e.1 then some (mkNavigateCall e.2.1 e.2.2) else none
    else none
  match fromPlaces with
  | some tc => some tc
  | none =>
    if gate then
      match reSearch coordAt text.toList with
      | some (g1, g2) =>
        let lat := floatOfMatch g1
        let lon := floatOfMatch g2
        if -90 ≤ lat ∧ lat ≤ 90 ∧ -180 ≤ lon ∧ lon ≤ 180 then
          some (mkNavigateCall lat lon)
        else none
      | none => none
    else none

/-- Embeds `extract_json_tool_call` (src/message_parser.py:9-35) on an
already-decoded JSON object.  In the `function_name` shape the name is
whatever value the object holds, and the arguments default to the empty
object. -/
def extract_json_tool_call (kvs : List (String × JVal)) : Option ToolCallMsg :=
  if pyHasKey kvs "function_name" then
    some (.fn (pyLookupD kvs "function_name" .null)
              (pyLookupD kvs "parameters" (.obj [])))
  else if pyHasKey kvs "navigate_to_location" then
    some (.fn (.str "navigate_to_location") (pyLookupD kvs "navigate_to_location" .null))
  else if pyHasKey kvs "zoom_to_level" then
    some (.fn (.str "zoom_to_level") (pyLookupD kvs "zoom_to_level" .null))
  else none

/-- Result dict of `parse_llm_response`: `textResponse` carries the
`content` value, the `thinking_content` and the optional `json_response`
fields (its `tool_calls` field is `None`); `toolCalls` carries the
`tool_calls` list and `thinking_content` (its `content` field is `None`). -/
inductive ParsedResponse where
  | textResponse : JVal → Option String → Option JVal → ParsedResponse
  | toolCalls : List ToolCallMsg → Option String → ParsedResponse

/-- Embeds `parse_llm_response` (src/message_parser.py:115-158).  Its only
parameters are `content` and `thinking_content`: it never receives the
model's natively structured tool calls, and it never consults
`extract_zoom_from_text`.  Flow: try `json.loads` on the stripped content;
a dict with a `"response"` key is a text response, a dict in a known
tool-call encoding becomes one tool call; any other outcome falls through
to `extract_tool_from_text` on the raw content, and failing that the raw
content is returned as a text response. -/
def parse_llm_response (content : String) (thinking_content : Option String) :
    ParsedResponse :=
  let fallback : ParsedResponse :=
    match extract_tool_from_text content with
    | some tc => .toolCalls [tc] thinking_content
    | none => .textResponse (.str content) thinking_content none
  match json_loads (pyStrip content) with
  | some (JVal.obj kvs) =>
    match pyLookup kvs "response" with
    | some v => .textResponse v thinking_content (some (.obj kvs))
    | none =>
      match extract_json_tool_call kvs with
      | some tc => .toolCalls [tc] thinking_content
      | none => fallback
  | _ => fallback

/-- Tool-call object as returned natively by the model API
(attribute-style, with the arguments JSON already decoded). -/
structure StructuredCall where
  name : String
  arguments : JVal

/-- Return dict of `LLMClient.call_llm` (src/llm_client.py:19-58). -/
structure LLMResponse where
  success : Bool
  content : Option String
  thinking_content : Option String
  tool_calls : Option (List StructuredCall)
  error : Option String

/-- Number of positional parameters `parse_llm_response` declares —
`content` and `thinking_content` — at src/message_parser.py:115. -/
def parse_llm_response_positional_params : Nat := 2

/-- Number of positional arguments `WebSocketHandler.handle_message` passes
to `parse_llm_response` at src/websocket_handler.py:100-104: the content,
the thinking content, and the model's structured tool calls. -/
def handle_message_parse_args : Nat := 3

/-- CPython accepts a plain positional call iff no more arguments are given
than the callee declares positional parameters (the callee here declares no
*args). -/
def pythonCallAccepted (declaredParams givenArgs : Nat) : Bool :=
  givenArgs ≤ declaredParams

/-- Message of the TypeError CPython raises for the arity mismatch. -/
def parse_arity_error : String :=
  "parse_llm_response() takes from 1 to 2 positional arguments but 3 were given"

/-- Embeds the call expression
`parse_llm_response(content, thinking_content, tool_calls)` at
src/websocket_handler.py:100-104 under CPython call semantics: the callee
declares only the two positional parameters `(content, thinking_content)`,
so the three-argument call raises TypeError before the parser body runs and
the structured calls are dropped on the floor.  (Were the call accepted, it
could only run the two-parameter parser, which has no structured-calls
input.) -/
def call_parse_llm_response3 (content : String) (thinking : Option String)
    (_calls : Option (List StructuredCall)) : Except PyExc ParsedResponse :=
  if pythonCallAccepted parse_llm_response_positional_params handle_message_parse_args then
    .ok (parse_llm_response content thinking)
  else
    .error (.typeError parse_arity_error)

/-- Outgoing WebSocket notifications of `WebSocketHandler.handle_message`,
by discriminator and principal fields: `toolCall` is a `"tool_call"`
message (tool name and decoded arguments), `toolResult` a `"tool_result"`
message (the `tool` and `result` fields read back off the handler dict via
`.get`, plus the state snapshot), `llmResponse` an `"llm_response"` message
(content value and optional original JSON).  The `api_response` diagnostic
payload attached to every message, and the serialization guard of
`send_safe_message` (which cannot fire on these JSON-serializable values),
are not modelled. -/
inductive HEvent where
  | toolCall : JVal → JVal → HEvent
  | toolResult : Option String → String → WorldState → HEvent
  | llmResponse : JVal → Option JVal → HEvent

/-- Tool-execution loop of `WebSocketHandler.handle_message`
(src/websocket_handler.py:121-155): per call, shape-sniff (skipping
unrecognized shapes via `continue`), announce the call, execute it — a
raised exception escapes the handler, there is no try/except — then report
the result, reading `tool_result.get("tool")` and
`tool_result.get("result", "Tool executed")` (an error dict has neither
key, yielding `None` and the fallback text).  The geocoding provider is
indexed by how many calls have executed so far. -/
def runToolCalls (geo : Nat → ProviderOutcome) :
    List ToolCallMsg → Nat → WorldState → List HEvent →
    WorldState × List HEvent × Except PyExc Unit
  | [], _, st, evs => (st, evs, .ok ())
  | .invalid _ :: rest, i, st, evs => runToolCalls geo rest i st evs
  | .fn name args :: rest, i, st, evs =>
    let evs1 := evs ++ [HEvent.toolCall name args]
    match execute_tool_call (geo i) (.fn name args) st with
    | (st', .error e) => (st', evs1, .error e)
    | (st', .ok r) =>
      let ev2 := match r with
        | .ok okr => HEvent.toolResult (some okr.tool) okr.result st'
        | .error _ => HEvent.toolResult none "Tool executed" st'
      runToolCalls geo rest (i + 1) st' (evs1 ++ [ev2])

/-- Inbound message shape accepted by the handler. -/
structure ChatMessage where
  type : String
  content : String

/-- Observable outcome of one `handle_message` run: final state, emitted
notifications, number of model calls performed, and whether the turn
completed or aborted with an uncaught exception. -/
structure HandleResult where
  state : WorldState
  events : List HEvent
  modelCalls : Nat
  outcome : Except PyExc Unit

/-- Embeds `WebSocketHandler.handle_message` (src/websocket_handler.py:71-213).
The model is an oracle indexed by call number; the body contains a single
call site and no loop, so only `model 0` is ever consulted.  On a
successful model response the three-positional-argument
`parse_llm_response` call raises TypeError (see `call_parse_llm_response3`),
aborting the turn; the continuation below it is therefore unreachable but
embedded nonetheless.  An unsuccessful response falls outside the
`if llm_response.get("success")` block, which has no else branch, so
nothing is emitted.  The `"mixed_response"` branch at line 157 compares
against a type the parser never produces and so has no counterpart here;
`resp.content.getD ""` stands for `llm_response.get("content", "")` (a
`None` content would reach the parser as `None`, but only inside the dead
branch). -/
def handle_message (model : Nat → LLMResponse) (geo : Nat → ProviderOutcome)
    (msg : ChatMessage) (st : WorldState) : HandleResult :=
  if msg.type ≠ "chat_message" then ⟨st, [], 0, .ok ()⟩
  else
    let resp := model 0
    if resp.success then
      match call_parse_llm_response3 (resp.content.getD "") resp.thinking_content
          resp.tool_calls with
      | .error e => ⟨st, [], 1, .error e⟩
      | .ok (.toolCalls tcs _) =>
        let (st', evs, out) := runToolCalls geo tcs 0 st []
        ⟨st', evs, 1, out⟩
      | .ok (.textResponse c _ jr) => ⟨st, [HEvent.llmResponse c jr], 1, .ok ()⟩
    else ⟨st, [], 1, .ok ()⟩

/-! ## Concrete fixtures shared by the closed theorems below -/

/-- Sample initial world state (the real initial value comes from
config.json, which is outside the embedded core; every statement below is
either universally quantified over the state or explicit about it). -/
def st0 : WorldState := ⟨(.num 0, .num 0), .num 2⟩

/-- Geocoding provider that always fails with a network error; used where a
provider is required but never consulted. -/
def offlineGeo : Nat → ProviderOutcome := fun _ => .raiseClient "offline"

/-- Model oracle that answers every call with a structured tool call and no
terminal prose. -/
def alwaysToolModel : Nat → LLMResponse := fun _ =>
  ⟨true, some "", none, some [⟨"zoom_to_level", .obj [("zoom_level", .num 5)]⟩], none⟩

/-! ## Claims -/

/-- Claim C1: for every integer z, dispatching `zoom_to_level(z)` stores
exactly `max(0, min(20, z))` as the zoom of the world state, a value that
is never outside [0, 20], and the call returns a tool result, never an
error, for out-of-range z. -/
theorem zoom_to_level_clamps (z : ℤ) (st : WorldState) :
    (zoom_to_level (.num (z : ℚ)) st).1.zoom = .num ((max 0 (min 20 z) : ℤ) : ℚ)
    ∧ (0 : ℤ) ≤ max 0 (min 20 z) ∧ max 0 (min 20 z) ≤ 20
    ∧ ∃ r, (zoom_to_level (.num (z : ℚ)) st).2 = .ok (.ok r) := by
  refine ⟨?_, le_max_left _ _, max_le (by norm_num) ((min_le_left _ _)), ⟨_, rfl⟩⟩
  show JVal.num (max 0 (min 20 (z : ℚ))) = .num ((max 0 (min 20 z) : ℤ) : ℚ)
  congr 1
  push_cast
  rfl

/-- Claim C8: for every valid (lat, lon) pair, `navigate_to_location` makes
the center exactly `(lon, lat)` with no re-validation or transformation,
and repeating the identical call leaves the state exactly as after the
first (idempotence). -/
theorem navigate_exact_and_idempotent (lat lon : ℚ) (st : WorldState)
    (h : -90 ≤ lat ∧ lat ≤ 90 ∧ -180 ≤ lon ∧ lon ≤ 180) :
    (navigate_to_location (.num lat) (.num lon) st).1.center = (.num lon, .num lat)
    ∧ (navigate_to_location (.num lat) (.num lon)
        (navigate_to_location (.num lat) (.num lon) st).1).1
      = (navigate_to_location (.num lat) (.num lon) st).1 := by
  cases st
  exact ⟨rfl, rfl⟩

/-- Witness for C8 at Tokyo's coordinates. -/
theorem navigate_exact_and_idempotent_witness :
    (navigate_to_location (.num 35.6762) (.num 139.6503) st0).1.center
      = (.num 139.6503, .num 35.6762)
    ∧ (navigate_to_location (.num 35.6762) (.num 139.6503)
        (navigate_to_location (.num 35.6762) (.num 139.6503) st0).1).1
      = (navigate_to_location (.num 35.6762) (.num 139.6503) st0).1 :=
  navigate_exact_and_idempotent 35.6762 139.6503 st0 (by norm_num)

/-- Claim C10 (frame property): `navigate_to_location` writes only the
center and leaves the zoom unchanged, and `zoom_to_level` writes only the
zoom and leaves the center unchanged — for every argument value, including
ones on which the zoom handler raises. -/
theorem handlers_frame (lat lon z : JVal) (st : WorldState) :
    (navigate_to_location lat lon st).1.zoom = st.zoom
    ∧ (zoom_to_level z st).1.center = st.center := by
  refine ⟨rfl, ?_⟩
  cases z <;> rfl

/-- Claim C6: dispatching a tool call whose name is not one of the three
registered tools returns an `"Unknown tool"` error dict and leaves the
world state completely unchanged; no argument is even inspected. -/
theorem unknown_tool_no_mutation (p : ProviderOutcome) (name args : JVal)
    (st : WorldState)
    (h1 : isStrEq name "navigate_to_location" = false)
    (h2 : isStrEq name "zoom_to_level" = false)
    (h3 : isStrEq name "geocode_address" = false) :
    execute_tool_call p (.fn name args) st
      = (st, .ok (.error ("Unknown tool: " ++ pyAtomStr name))) := by
  simp [execute_tool_call, h1, h2, h3]

/-- Witness for C6 at the unregistered name "teleport". -/
theorem unknown_tool_no_mutation_witness :
    execute_tool_call (offlineGeo 0) (.fn (.str "teleport") (.obj [])) st0
      = (st0, .ok (.error "Unknown tool: teleport")) :=
  unknown_tool_no_mutation (offlineGeo 0) (.str "teleport") (.obj []) st0 rfl rfl rfl

/-- Claim C9: on the input "navigate to Tokyo" with no structured tool
calls, the normalizer's gazetteer heuristic yields exactly one navigate
tool call with latitude 35.6762 and longitude 139.6503, and no terminal
prose (the `toolCalls` shape has its `content` field `None`). -/
theorem navigate_to_tokyo_gazetteer :
    parse_llm_response "navigate to Tokyo" none
      = .toolCalls [mkNavigateCall 35.6762 139.6503] none := by
  rfl

/-- Claim C2 (code bug): the handler passes the model's structured tool
calls as a third positional argument, but `parse_llm_response` accepts at
most two positional arguments, so on every successful model turn —
structured calls present or not — the call raises TypeError instead of
wrapping the structured calls as authoritative ToolCalls; the normalizer
has no structured-call input at all. -/
theorem structured_calls_never_reach_normalizer :
    pythonCallAccepted parse_llm_response_positional_params handle_message_parse_args
      = false
    ∧ ∀ (c : String) (th : Option String) (calls : Option (List StructuredCall)),
        call_parse_llm_response3 c th calls = .error (.typeError parse_arity_error) := by
  exact ⟨rfl, fun _ _ _ => rfl⟩

/-- Claim C3 counterexample: with a model that always returns tool calls,
`handle_message` performs exactly one model call and emits no notification
at all — there is no 5-iteration loop and no IterationLimitExceeded
signal; the turn aborts with the normalizer-arity TypeError. -/
theorem no_iteration_limit_counterexample :
    handle_message alwaysToolModel offlineGeo ⟨"chat_message", "zoom in"⟩ st0
      = ⟨st0, [], 1, .error (.typeError parse_arity_error)⟩ := by
  rfl

/-- Claim C3 amended: for every model — in particular one that always
returns tool calls — the handler issues exactly one model call per chat
message and never a second (there is no loop, no iteration counter and no
IterationLimitExceeded signal in its vocabulary); moreover, whenever the
model call succeeds the turn aborts with the normalizer-arity TypeError
rather than iterating. -/
theorem handle_message_single_model_call (model : Nat → LLMResponse)
    (geo : Nat → ProviderOutcome) (msg : ChatMessage) (st : WorldState)
    (h : msg.type = "chat_message") :
    (handle_message model geo msg st).modelCalls = 1
    ∧ ((model 0).success = true →
        (handle_message model geo msg st).outcome
          = .error (.typeError parse_arity_error)) := by
  have hne : ¬ msg.type ≠ "chat_message" := by simp [h]
  cases hsucc : (model 0).success with
  | true =>
    constructor
    · simp only [handle_message, if_neg hne, hsucc, if_true]
      rfl
    · intro _
      simp only [handle_message, if_neg hne, hsucc, if_true]
      rfl
  | false =>
    constructor
    · simp only [handle_message, if_neg hne, hsucc]
      rfl
    · intro hcontra
      exact absurd hcontra (by simp)

/-- Witness for the amended C3 at a concrete always-tool-calling model. -/
theorem handle_message_single_model_call_witness :
    (handle_message alwaysToolModel offlineGeo ⟨"chat_message", "hello"⟩ st0).modelCalls = 1
    ∧ ((alwaysToolModel 0).success = true →
        (handle_message alwaysToolModel offlineGeo ⟨"chat_message", "hello"⟩ st0).outcome
          = .error (.typeError parse_arity_error)) :=
  handle_message_single_model_call alwaysToolModel offlineGeo
    ⟨"chat_message", "hello"⟩ st0 rfl

/-- Claim C4 counterexample: on "zoom to 99" (no structured calls) the
normalizer emits no tool call at all — `parse_llm_response` returns a text
response and never invokes the zoom extractor — and the extractor itself
returns the already-clamped 20, not the parsed integer 99. -/
theorem zoom99_no_toolcall_counterexample :
    (∀ (tcs : List ToolCallMsg) (th : Option String),
        parse_llm_response "zoom to 99" none ≠ .toolCalls tcs th)
    ∧ extract_zoom_from_text "zoom to 99" ≠ some 99 := by
  constructor
  · intro tcs th hcontra
    have hval : parse_llm_response "zoom to 99" none
        = .textResponse (.str "zoom to 99") none none := by rfl
    rw [hval] at hcontra
    exact ParsedResponse.noConfusion hcontra
  · have hval : extract_zoom_from_text "zoom to 99" = some 20 := by rfl
    rw [hval]
    simp

/-- Claim C4 amended: on "zoom to 99" with no structured tool calls,
`parse_llm_response` (which never consults the zoom extractor) emits no
tool call and returns the raw text; `extract_zoom_from_text` itself
returns 20, clamped inside the extractor rather than at dispatch; and
dispatching a zoom call that carries 20 stores zoom level 20. -/
theorem zoom99_amended :
    parse_llm_response "zoom to 99" none
      = .textResponse (.str "zoom to 99") none none
    ∧ extract_zoom_from_text "zoom to 99" = some 20
    ∧ ∀ st : WorldState, (zoom_to_level (.num 20) st).1.zoom = .num 20 := by
  refine ⟨by rfl, by rfl, fun st => ?_⟩
  show JVal.num (max 0 (min 20 (20 : ℚ))) = .num 20
  norm_num

/-- Claim C5 counterexample: a zoom call with no arguments raises an
uncaught KeyError instead of returning a ToolResult error, and a navigate
call whose required latitude is malformed (a string) is executed without
any validation, fully mutating the state with a success result. -/
theorem missing_argument_counterexample :
    execute_tool_call (offlineGeo 0) (.fn (.str "zoom_to_level") (.obj [])) st0
      = (st0, .error (.keyError "zoom_level"))
    ∧ (execute_tool_call (offlineGeo 0)
        (.fn (.str "navigate_to_location")
          (.obj [("latitude", .str "north"), ("longitude", .num 0)])) st0).1.center
      = (.num 0, .str "north")
    ∧ ∃ r, (execute_tool_call (offlineGeo 0)
        (.fn (.str "navigate_to_location")
          (.obj [("latitude", .str "north"), ("longitude", .num 0)])) st0).2
      = .ok (.ok r) :=
  ⟨rfl, rfl, ⟨_, rfl⟩⟩

/-- Claim C5 amended: the dispatcher performs no schema validation.  A tool
call missing its required argument raises an uncaught KeyError naming the
key — no ToolResult error dict is produced — and the state is unchanged
only because the subscription happens to precede every mutation; a
wrong-typed required argument is not rejected at all (navigate stores it
unchecked, as the counterexample shows). -/
theorem missing_argument_raises (p : ProviderOutcome) (st : WorldState)
    (kvs : List (String × JVal))
    (hlat : pyLookup kvs "latitude" = none)
    (hzoom : pyLookup kvs "zoom_level" = none)
    (haddr : pyLookup kvs "address" = none) :
    execute_tool_call p (.fn (.str "navigate_to_location") (.obj kvs)) st
      = (st, .error (.keyError "latitude"))
    ∧ execute_tool_call p (.fn (.str "zoom_to_level") (.obj kvs)) st
      = (st, .error (.keyError "zoom_level"))
    ∧ execute_tool_call p (.fn (.str "geocode_address") (.obj kvs)) st
      = (st, .error (.keyError "address")) := by
  refine ⟨?_, ?_, ?_⟩ <;>
    simp [execute_tool_call, pySubscript, hlat, hzoom, haddr, isStrEq]

/-- Witness for the amended C5 at the empty argument dict. -/
theorem missing_argument_raises_witness :
    execute_tool_call (offlineGeo 0) (.fn (.str "navigate_to_location") (.obj [])) st0
      = (st0, .error (.keyError "latitude"))
    ∧ execute_tool_call (offlineGeo 0) (.fn (.str "zoom_to_level") (.obj [])) st0
      = (st0, .error (.keyError "zoom_level"))
    ∧ execute_tool_call (offlineGeo 0) (.fn (.str "geocode_address") (.obj [])) st0
      = (st0, .error (.keyError "address")) :=
  missing_argument_raises (offlineGeo 0) st0 [] rfl rfl rfl

/-- Error condition of claim C7 on the provider outcome: a network error, a
non-200 HTTP status, an empty (or defaulted-empty) candidate list, or a top
candidate whose location lacks an x or y coordinate. -/
def geoClaimFailure : ProviderOutcome → Bool
  | .raiseClient _ => true
  | .raiseOther _ => false
  | .response r =>
    if r.status = 200 then
      match r.body with
      | .error _ => false
      | .ok data =>
        match data with
        | .obj kvs =>
          match pyLookupD kvs "candidates" (.arr []) with
          | .arr [] => true
          | .arr (c :: _) =>
            (match c with
            | .obj ckvs =>
              match pyLookupD ckvs "location" (.obj []) with
              | .obj lkvs =>
                isNull (pyLookupD lkvs "x" .null) || isNull (pyLookupD lkvs "y" .null)
              | _ => false
            | _ => false)
          | _ => false
        | _ => false
    else true

/-- Claim C7: whenever the geocode provider call fails (HTTP or network
error), or returns an empty candidate list, or its top candidate lacks
coordinates, `geocode_address` returns an error dict and the world state —
center and zoom — is exactly what it was before the call. -/
theorem geocode_error_leaves_state (p : ProviderOutcome) (addr : JVal)
    (st : WorldState) (h : geoClaimFailure p = true) :
    (geocode_address p addr st).1 = st
    ∧ ∃ m, (geocode_address p addr st).2 = .error m := by
  cases p with
  | raiseClient m => exact ⟨rfl, _, rfl⟩
  | raiseOther m => exact absurd h (by simp [geoClaimFailure])
  | response r =>
    obtain ⟨status, body⟩ := r
    by_cases hs : status = 200
    · subst hs
      simp only [geoClaimFailure, if_pos rfl] at h
      cases body with
      | error m => exact absurd h (by simp)
      | ok data =>
        simp only [geocode_address, if_pos rfl]
        cases data with
        | obj kvs =>
          simp only at h
          cases hc : pyLookupD kvs "candidates" (.arr []) with
          | arr cl =>
            cases cl with
            | nil =>
              refine ⟨?_, ?_⟩ <;>
                simp [geocode_with_data, pyGet, hc, pyTruthy, Bind.bind, Except.bind,
                  pure, Except.pure]
            | cons c rest =>
              rw [hc] at h
              cases c with
              | obj ckvs =>
                simp only at h
                cases hl : pyLookupD ckvs "location" (.obj []) with
                | obj lkvs =>
                  rw [hl] at h
                  simp at h
                  refine ⟨?_, ?_⟩ <;>
            rcases h with h | h <;>
              simp [geocode_with_data, pyGet, hc, hl, pyTruthy, pyIndexZero,
                Bind.bind, Except.bind, pure, Except.pure, h]
                | null => exact absurd (hl ▸ h) (by simp)
                | boolean b => exact absurd (hl ▸ h) (by simp)
                | num q => exact absurd (hl ▸ h) (by simp)
                | str s => exact absurd (hl ▸ h) (by simp)
                | arr l => exact absurd (hl ▸ h) (by simp)
              | null => exact absurd h (by simp)
              | boolean b => exact absurd h (by simp)
              | num q => exact absurd h (by simp)
              | str s => exact absurd h (by simp)
              | arr l => exact absurd h (by simp)
          | null => exact absurd (hc ▸ h) (by simp)
          | boolean b => exact absurd (hc ▸ h) (by simp)
          | num q => exact absurd (hc ▸ h) (by simp)
          | str s => exact absurd (hc ▸ h) (by simp)
          | obj okvs => exact absurd (hc ▸ h) (by simp)
        | null => exact absurd h (by simp)
        | boolean b => exact absurd h (by simp)
        | num q => exact absurd h (by simp)
        | str s => exact absurd h (by simp)
        | arr l => exact absurd h (by simp)
    · refine ⟨?_, ?_⟩ <;> simp [geocode_address, hs]

/-- Witness for C7: a 200 response with an empty candidate list leaves the
state untouched and yields an error. -/
theorem geocode_error_leaves_state_witness :
    (geocode_address (.response ⟨200, .ok (.obj [("candidates", .arr [])])⟩)
        (.str "nowhere") st0).1 = st0
    ∧ ∃ m, (geocode_address (.response ⟨200, .ok (.obj [("candidates", .arr [])])⟩)
        (.str "nowhere") st0).2 = .error m :=
  geocode_error_leaves_state
    (.response ⟨200, .ok (.obj [("candidates", .arr [])])⟩) (.str "nowhere") st0 rfl

end MapApp
